import Mathlib

/-!
Verification of the matart geometry module: a shallow embedding of the
shape type, the five primitive transformation rules, the two preset
generators and the sequence driver, together with theorems settling the
specification claims about them.

Numeric values are modelled over an arbitrary linear ordered field `α`
(exact arithmetic).  The two irrational constants appearing in the code,
`math.sqrt(2)` and `math.sin(math.radians(60))`, are abstracted into a
`MathConsts` record so that the definitions stay computable; theorems
needing their actual values take the defining equation as a hypothesis
and are instantiated over `ℝ` in the witnesses.  Python dictionaries of
parameters become association lists with first-match lookup, Python's
float modulo becomes `pyMod`, and the `raise` in the sequence driver
becomes an `Except.error` result.
-/

universe u

section Matart

variable {α : Type} [LinearOrderedField α] [FloorRing α]

/-- A geometric shape: a kind tag plus a parameter mapping (Python dict). -/
structure Shape (α : Type) where
  name : String
  params : List (String × α)
  deriving DecidableEq, Repr

/-- The irrational constants used by the code: `math.sqrt(2)` and
`math.sin(math.radians(60))`. -/
structure MathConsts (α : Type) where
  sqrt2 : α
  sin60 : α
  deriving DecidableEq, Repr

/-- The configuration keyword arguments accepted by the rules; a missing
field corresponds to a key absent from `**kwargs`. -/
structure Kwargs (α : Type) where
  scale_factor : Option α
  rotation_increment : Option α
  translate_dx : Option α
  translate_dy : Option α
  hue_shift : Option α
  deriving DecidableEq, Repr

/-- First-match lookup in a parameter association list (Python dict access). -/
def lookupParam (p : List (String × α)) (k : String) : Option α :=
  (p.find? (fun e => e.1 == k)).map Prod.snd

/-- `p.get(k, d)` on a Python parameter dict. -/
def paramsGet (p : List (String × α)) (k : String) (d : α) : α :=
  (lookupParam p k).getD d

/-- Python's `%` on numbers: `x % m = x - m * floor(x / m)`. -/
def pyMod (x m : α) : α :=
  x - m * (⌊x / m⌋ : ℤ)

/-- Python list slice `l[:n]`, including the negative-index convention. -/
def pySlice {β : Type u} (l : List β) (n : Int) : List β :=
  if n < 0 then l.take ((l.length : Int) + n).toNat else l.take n.toNat

/-- Python `l[-1]` with a default for the (never reached) empty case. -/
def pyLast {β : Type u} (l : List β) (d : β) : β :=
  (l.getLast?).getD d

/-- `rule_scale_by_diagonal`: size grows by √2, x advances by the mean of
old and new size, y is kept. -/
def rule_scale_by_diagonal (c : MathConsts α) (shape : Shape α) : Shape α :=
  let size := paramsGet shape.params "size" 1
  let diag := size * c.sqrt2
  let x := paramsGet shape.params "x" 0 + (size + diag) / 2
  let y := paramsGet shape.params "y" 0
  Shape.mk shape.name
    [("x", x), ("y", y), ("size", diag),
     ("angle", paramsGet shape.params "angle" 0),
     ("hue", paramsGet shape.params "hue" 0)]

/-- `rule_uniform_scale`: size multiplied by `scale_factor` (default 1.1). -/
def rule_uniform_scale (kw : Kwargs α) (shape : Shape α) : Shape α :=
  let factor := kw.scale_factor.getD (11 / 10)
  let prev := paramsGet shape.params "size" 1
  let new_size := prev * factor
  let x := paramsGet shape.params "x" 0 + (prev + new_size) / 2
  let y := paramsGet shape.params "y" 0
  Shape.mk shape.name
    [("x", x), ("y", y), ("size", new_size),
     ("angle", paramsGet shape.params "angle" 0),
     ("hue", paramsGet shape.params "hue" 0)]

/-- `rule_rotate`: angle advances by `rotation_increment` (default 30) mod 360. -/
def rule_rotate (kw : Kwargs α) (shape : Shape α) : Shape α :=
  let inc := kw.rotation_increment.getD 30
  let angle := pyMod (paramsGet shape.params "angle" 0 + inc) 360
  Shape.mk shape.name
    [("x", paramsGet shape.params "x" 0),
     ("y", paramsGet shape.params "y" 0),
     ("size", paramsGet shape.params "size" 1),
     ("angle", angle),
     ("hue", paramsGet shape.params "hue" 0)]

/-- `rule_translate`: x advances by `translate_dx` (default: current size),
y by `translate_dy` (default 0). -/
def rule_translate (kw : Kwargs α) (shape : Shape α) : Shape α :=
  let dx := kw.translate_dx.getD (paramsGet shape.params "size" 1)
  let dy := kw.translate_dy.getD 0
  Shape.mk shape.name
    [("x", paramsGet shape.params "x" 0 + dx),
     ("y", paramsGet shape.params "y" 0 + dy),
     ("size", paramsGet shape.params "size" 1),
     ("angle", paramsGet shape.params "angle" 0),
     ("hue", paramsGet shape.params "hue" 0)]

/-- `rule_hue_shift`: hue advances by `hue_shift` (default 10) mod 360. -/
def rule_hue_shift (kw : Kwargs α) (shape : Shape α) : Shape α :=
  let delta := kw.hue_shift.getD 10
  let hue := pyMod (paramsGet shape.params "hue" 0 + delta) 360
  Shape.mk shape.name
    [("x", paramsGet shape.params "x" 0),
     ("y", paramsGet shape.params "y" 0),
     ("size", paramsGet shape.params "size" 1),
     ("angle", paramsGet shape.params "angle" 0),
     ("hue", hue)]

/-- One step of the Fibonacci size list construction:
`fib.append(fib[-1] + fib[-2])`. -/
def fibNext (l : List α) : List α :=
  l ++ [l.getD (l.length - 1) 0 + l.getD (l.length - 2) 0]

/-- The Fibonacci size list: seeded with `[s, s]`, extended once per index
in `range(2, iterations)`. -/
def fibBuild (s : α) (iterations : Int) : List α :=
  fibNext^[(iterations - 2).toNat] [s, s]

/-- The body of the fibonacci spiral loop: walks the enumerated size list
carrying the current position `(x, y)`. -/
def fibLoop (name : String) (hue : α) (fib : List α) :
    List (Nat × α) → α → α → List (Shape α)
  | [], _, _ => []
  | (i, size) :: rest, x, y =>
    let d := ([(1, 0), (0, 1), (-1, 0), (0, -1)] : List (α × α)).getD (i % 4) (0, 0)
    let step := (fib.getD (i - 1) 0 + size) / 2
    let x1 := if 0 < i then x + d.1 * step else x
    let y1 := if 0 < i then y + d.2 * step else y
    Shape.mk name
      [("x", x1), ("y", y1), ("size", size),
       ("angle", ((i % 4 : Nat) : α) * 90), ("hue", hue)]
      :: fibLoop name hue fib rest x1 y1

/-- `generate_fibonacci_spiral`. -/
def generate_fibonacci_spiral (start : Shape α) (iterations : Int) : List (Shape α) :=
  let fib := fibBuild (paramsGet start.params "size" 1) iterations
  fibLoop start.name (paramsGet start.params "hue" 0) fib
    (pySlice fib iterations).enum
    (paramsGet start.params "x" 0) (paramsGet start.params "y" 0)

/-- A `line` shape from endpoint `a` to endpoint `b`. -/
def kochLine (a b : α × α) (hue : α) : Shape α :=
  Shape.mk "line" [("x1", a.1), ("y1", a.2), ("x2", b.1), ("y2", b.2), ("hue", hue)]

/-- `generate_koch_snowflake` (stub): the three edges of an equilateral
triangle of side `size`, ignoring `iterations`. -/
def generate_koch_snowflake (c : MathConsts α) (start : Shape α)
    (iterations : Int) : List (Shape α) :=
  let size := paramsGet start.params "size" 1
  let p1 : α × α := (0, 0)
  let p2 : α × α := (size, 0)
  let p3 : α × α := (size / 2, size * c.sin60)
  let hue := paramsGet start.params "hue" 0
  [kochLine p1 p2 hue, kochLine p2 p3 hue, kochLine p3 p1 hue]

/-- The `PRIMITIVE_RULES` registry, with constants and kwargs applied. -/
def PRIMITIVE_RULES (c : MathConsts α) (kw : Kwargs α) :
    List (String × (Shape α → Shape α)) :=
  [("scale_by_diagonal", rule_scale_by_diagonal c),
   ("uniform_scale", rule_uniform_scale kw),
   ("rotate", rule_rotate kw),
   ("translate", rule_translate kw),
   ("hue_shift", rule_hue_shift kw)]

/-- The `PRESETS` registry. -/
def PRESETS (c : MathConsts α) (kw : Kwargs α) :
    List (String × (Shape α → Int → List (Shape α))) :=
  [("fibonacci_spiral", fun s n => generate_fibonacci_spiral s n),
   ("koch_snowflake", fun s n => generate_koch_snowflake c s n)]

/-- The iterative part of `generate_sequence`: `iterations - 1` times,
append the rule applied to the last element. -/
def genLoop (f : Shape α → Shape α) (d : Shape α) :
    Nat → List (Shape α) → List (Shape α)
  | 0, seq => seq
  | n + 1, seq => genLoop f d n (seq ++ [f (pyLast seq d)])

/-- `generate_sequence`: dispatch to a preset, raise on an unknown key,
otherwise iterate the primitive rule. -/
def generate_sequence (c : MathConsts α) (kw : Kwargs α) (start : Shape α)
    (rule_key : String) (iterations : Int) : Except String (List (Shape α)) :=
  match (PRESETS c kw).find? (fun e => e.1 == rule_key) with
  | some e => Except.ok (e.2 start iterations)
  | none =>
    match (PRIMITIVE_RULES c kw).find? (fun e => e.1 == rule_key) with
    | none => Except.error ("Unknown rule or preset: " ++ rule_key)
    | some e => Except.ok (genLoop e.2 start (iterations - 1).toNat [start])

/-- The key set of `PRIMITIVE_RULES`. -/
def primitiveKeys : List String :=
  ["scale_by_diagonal", "uniform_scale", "rotate", "translate", "hue_shift"]

/-- The key set of `PRESETS`. -/
def presetKeys : List String :=
  ["fibonacci_spiral", "koch_snowflake"]

/-- All keys accepted by `generate_sequence`. -/
def allKeys : List String := primitiveKeys ++ presetKeys

/-- The rule function the registry associates to a primitive key. -/
def ruleOf (c : MathConsts α) (kw : Kwargs α) (k : String) : Shape α → Shape α :=
  match (PRIMITIVE_RULES c kw).find? (fun e => e.1 == k) with
  | some e => e.2
  | none => id

/-- Append `(k, d)` when key `k` is absent from the mapping. -/
def insertDefault (p : List (String × α)) (k : String) (d : α) : List (String × α) :=
  if (p.find? (fun e => e.1 == k)).isSome then p else p ++ [(k, d)]

/-- Fill every recognized key missing from the mapping with its documented
default (0 for x, y, angle, hue; 1 for size). -/
def fillDefaults (p : List (String × α)) : List (String × α) :=
  insertDefault (insertDefault (insertDefault (insertDefault
    (insertDefault p "x" 0) "y" 0) "size" 1) "angle" 0) "hue" 0

/-- The size parameters of a list of shapes. -/
def sizesOf (l : List (Shape α)) : List α :=
  l.map (fun sh => paramsGet sh.params "size" 0)

/-- The squared Euclidean length of a `line` shape. -/
def lineSqLen (sh : Shape α) : α :=
  (paramsGet sh.params "x2" 0 - paramsGet sh.params "x1" 0) ^ 2 +
    (paramsGet sh.params "y2" 0 - paramsGet sh.params "y1" 0) ^ 2

/-- A rule output is well shaped: it keeps the input's kind, its parameter
mapping has exactly the keys x, y, size, angle, hue in that order, and the
rule reads any missing parameter as its documented default. -/
def ruleWellFormed (f : Shape α → Shape α) (s : Shape α) : Prop :=
  (f s).name = s.name ∧
    (f s).params.map Prod.fst = ["x", "y", "size", "angle", "hue"] ∧
    f s = f (Shape.mk s.name (fillDefaults s.params))

end Matart

section Lemmas

variable {α : Type} [LinearOrderedField α] [FloorRing α]

theorem pyMod_nonneg (x m : α) (hm : 0 < m) : 0 ≤ pyMod x m := by
  have h1 : (⌊x / m⌋ : α) ≤ x / m := Int.floor_le _
  have h2 : m * (⌊x / m⌋ : α) ≤ x := by
    calc m * (⌊x / m⌋ : α) ≤ m * (x / m) := by
          exact mul_le_mul_of_nonneg_left h1 hm.le
      _ = x := by field_simp
  simpa [pyMod] using h2

theorem pyMod_lt (x m : α) (hm : 0 < m) : pyMod x m < m := by
  have h1 : x / m < (⌊x / m⌋ : α) + 1 := Int.lt_floor_add_one _
  have h2 : x < m * ((⌊x / m⌋ : α) + 1) := by
    calc x = m * (x / m) := by field_simp
      _ < m * ((⌊x / m⌋ : α) + 1) := by
          exact mul_lt_mul_of_pos_left h1 hm
  have : x < m * (⌊x / m⌋ : α) + m := by ring_nf at h2 ⊢; linarith
  simp only [pyMod]
  linarith

theorem lookupParam_append (p q : List (String × α)) (k : String) :
    lookupParam (p ++ q) k = (lookupParam p k).or (lookupParam q k) := by
  unfold lookupParam
  rw [List.find?_append]
  cases p.find? (fun e => e.1 == k) <;> simp

theorem paramsGet_of_lookup (p : List (String × α)) (k : String) (v d : α)
    (h : lookupParam p k = some v) : paramsGet p k d = v := by
  simp [paramsGet, h]

theorem paramsGet_insertDefault_self (p : List (String × α)) (k : String) (d : α) :
    paramsGet (insertDefault p k d) k d = paramsGet p k d := by
  unfold insertDefault
  split
  · rfl
  · rename_i hnone
    have hn : p.find? (fun e => e.1 == k) = none := by
      rcases h : p.find? (fun e => e.1 == k) with _ | e
      · exact h
      · exact absurd (by simp [h]) hnone
    simp only [paramsGet, lookupParam]
    rw [List.find?_append, hn]
    simp [List.find?]

theorem paramsGet_insertDefault_ne (p : List (String × α)) (k : String) (d : α)
    (k' : String) (d' : α) (h : (k == k') = false) :
    paramsGet (insertDefault p k d) k' d' = paramsGet p k' d' := by
  unfold insertDefault
  split
  · rfl
  · simp only [paramsGet, lookupParam_append, lookupParam]
    simp [List.find?, h]

theorem paramsGet_fillDefaults_x (p : List (String × α)) :
    paramsGet (fillDefaults p) "x" 0 = paramsGet p "x" 0 := by
  unfold fillDefaults
  rw [paramsGet_insertDefault_ne _ _ _ _ _ (by decide),
    paramsGet_insertDefault_ne _ _ _ _ _ (by decide),
    paramsGet_insertDefault_ne _ _ _ _ _ (by decide),
    paramsGet_insertDefault_ne _ _ _ _ _ (by decide),
    paramsGet_insertDefault_self]

theorem paramsGet_fillDefaults_y (p : List (String × α)) :
    paramsGet (fillDefaults p) "y" 0 = paramsGet p "y" 0 := by
  unfold fillDefaults
  rw [paramsGet_insertDefault_ne _ _ _ _ _ (by decide),
    paramsGet_insertDefault_ne _ _ _ _ _ (by decide),
    paramsGet_insertDefault_ne _ _ _ _ _ (by decide),
    paramsGet_insertDefault_self,
    paramsGet_insertDefault_ne _ _ _ _ _ (by decide)]

theorem paramsGet_fillDefaults_size (p : List (String × α)) :
    paramsGet (fillDefaults p) "size" 1 = paramsGet p "size" 1 := by
  unfold fillDefaults
  rw [paramsGet_insertDefault_ne _ _ _ _ _ (by decide),
    paramsGet_insertDefault_ne _ _ _ _ _ (by decide),
    paramsGet_insertDefault_self,
    paramsGet_insertDefault_ne _ _ _ _ _ (by decide),
    paramsGet_insertDefault_ne _ _ _ _ _ (by decide)]

theorem paramsGet_fillDefaults_angle (p : List (String × α)) :
    paramsGet (fillDefaults p) "angle" 0 = paramsGet p "angle" 0 := by
  unfold fillDefaults
  rw [paramsGet_insertDefault_ne _ _ _ _ _ (by decide),
    paramsGet_insertDefault_self,
    paramsGet_insertDefault_ne _ _ _ _ _ (by decide),
    paramsGet_insertDefault_ne _ _ _ _ _ (by decide),
    paramsGet_insertDefault_ne _ _ _ _ _ (by decide)]

theorem paramsGet_fillDefaults_hue (p : List (String × α)) :
    paramsGet (fillDefaults p) "hue" 0 = paramsGet p "hue" 0 := by
  unfold fillDefaults
  rw [paramsGet_insertDefault_self,
    paramsGet_insertDefault_ne _ _ _ _ _ (by decide),
    paramsGet_insertDefault_ne _ _ _ _ _ (by decide),
    paramsGet_insertDefault_ne _ _ _ _ _ (by decide),
    paramsGet_insertDefault_ne _ _ _ _ _ (by decide)]

theorem map_iterate_range_succ (f : Shape α → Shape α) (t : Shape α) (k : Nat) :
    (List.range (k + 1)).map (fun i => f^[i] t) =
      t :: (List.range k).map (fun i => f^[i] (f t)) := by
  rw [List.range_succ_eq_map, List.map_cons, List.map_map]
  refine List.cons_eq_cons.mpr ⟨rfl, ?_⟩
  apply List.map_congr_left
  intro a ha
  simp only [Function.comp_apply, Function.iterate_succ_apply]

theorem genLoop_eq (f : Shape α → Shape α) (d : Shape α) :
    ∀ (k : Nat) (seq : List (Shape α)) (t : Shape α), pyLast seq d = t →
      genLoop f d k seq = seq ++ (List.range k).map (fun i => f^[i] (f t)) := by
  intro k
  induction k with
  | zero => intro seq t ht; simp [genLoop]
  | succ k ih =>
    intro seq t ht
    have hlast : pyLast (seq ++ [f t]) d = f t := by
      simp [pyLast, List.getLast?_concat]
    calc genLoop f d (k + 1) seq = genLoop f d k (seq ++ [f (pyLast seq d)]) := rfl
      _ = genLoop f d k (seq ++ [f t]) := by rw [ht]
      _ = (seq ++ [f t]) ++ (List.range k).map (fun i => f^[i] (f (f t))) := ih _ _ hlast
      _ = seq ++ ([f t] ++ (List.range k).map (fun i => f^[i] (f (f t)))) := by
          rw [List.append_assoc]
      _ = seq ++ (List.range (k + 1)).map (fun i => f^[i] (f t)) := by
          rw [map_iterate_range_succ f (f t) k, List.singleton_append]

theorem genLoop_singleton (f : Shape α → Shape α) (d s : Shape α) (k : Nat) :
    genLoop f d k [s] = (List.range (k + 1)).map (fun i => f^[i] s) := by
  rw [genLoop_eq f d k [s] s rfl, map_iterate_range_succ f s k, List.singleton_append]

theorem getD_map_range {β : Type u} (g : Nat → β) (m i : Nat) (h : i < m) (dflt : β) :
    ((List.range m).map g).getD i dflt = g i := by
  simp [List.getD_eq_getElem?_getD, List.getElem?_range h]

theorem genLoop_spec (f : Shape α → Shape α) (s : Shape α) (m : Nat) :
    (genLoop f s m [s]).length = m + 1 ∧
    (genLoop f s m [s]).getD 0 s = s ∧
    ∀ i : Nat, i + 1 < m + 1 →
      (genLoop f s m [s]).getD (i + 1) s = f ((genLoop f s m [s]).getD i s) := by
  rw [genLoop_singleton]
  refine ⟨by simp, ?_, ?_⟩
  · rw [getD_map_range _ _ _ (by omega)]
    simp
  · intro i hi
    rw [getD_map_range _ _ _ (by omega), getD_map_range _ _ _ (by omega)]
    exact Function.iterate_succ_apply' f i s

theorem genSeq_dispatch_prim (c : MathConsts α) (kw : Kwargs α) (s : Shape α) (n : Int)
    (k : String) (hk : k ∈ primitiveKeys) :
    generate_sequence c kw s k n =
      Except.ok (genLoop (ruleOf c kw k) s (n - 1).toNat [s]) := by
  simp only [primitiveKeys, List.mem_cons, List.not_mem_nil, or_false] at hk
  rcases hk with rfl | rfl | rfl | rfl | rfl <;> rfl

theorem getD_append_lt {β : Type u} (l1 l2 : List β) (i : Nat) (h : i < l1.length) (d : β) :
    (l1 ++ l2).getD i d = l1.getD i d := by
  simp [List.getD_eq_getElem?_getD, List.getElem?_append_left h]

theorem getD_concat_len {β : Type u} (l : List β) (a d : β) :
    (l ++ [a]).getD l.length d = a := by
  simp [List.getD_eq_getElem?_getD, List.getElem?_append_right (le_refl l.length)]

theorem getD_take_lt {β : Type u} (l : List β) (n i : Nat) (h : i < n) (d : β) :
    (l.take n).getD i d = l.getD i d := by
  simp [List.getD_eq_getElem?_getD, List.getElem?_take_of_lt h]

theorem fibNext_iter_spec (s : α) : ∀ k : Nat,
    (fibNext^[k] [s, s]).length = k + 2 ∧
    (fibNext^[k] [s, s]).getD 0 0 = s ∧
    (fibNext^[k] [s, s]).getD 1 0 = s ∧
    ∀ i : Nat, 2 ≤ i → i < k + 2 →
      (fibNext^[k] [s, s]).getD i 0 =
        (fibNext^[k] [s, s]).getD (i - 1) 0 + (fibNext^[k] [s, s]).getD (i - 2) 0 := by
  intro k
  induction k with
  | zero =>
    refine ⟨rfl, rfl, rfl, ?_⟩
    intro i h2 hlt
    omega
  | succ k ih =>
    obtain ⟨hlen, h0, h1, hrec⟩ := ih
    have hstep : fibNext^[k + 1] [s, s] =
        fibNext^[k] [s, s] ++
          [(fibNext^[k] [s, s]).getD (k + 1) 0 + (fibNext^[k] [s, s]).getD k 0] := by
      rw [Function.iterate_succ_apply']
      rw [show ∀ l : List α, fibNext l =
          l ++ [l.getD (l.length - 1) 0 + l.getD (l.length - 2) 0] from fun l => rfl]
      rw [hlen]
      norm_num
    refine ⟨?_, ?_, ?_, ?_⟩
    · rw [hstep]
      simp [hlen]
    · rw [hstep, getD_append_lt _ _ _ (by rw [hlen]; omega)]
      exact h0
    · rw [hstep, getD_append_lt _ _ _ (by rw [hlen]; omega)]
      exact h1
    · intro i h2 hlt
      by_cases hi : i < k + 2
      · rw [hstep, getD_append_lt _ _ _ (by rw [hlen]; omega),
          getD_append_lt _ _ _ (by rw [hlen]; omega),
          getD_append_lt _ _ _ (by rw [hlen]; omega)]
        exact hrec i h2 hi
      · have hieq : i = k + 2 := by omega
        subst hieq
        have hLcast : (fibNext^[k] [s, s] ++
            [(fibNext^[k] [s, s]).getD (k + 1) 0 + (fibNext^[k] [s, s]).getD k 0]).getD (k + 2) 0 =
            (fibNext^[k] [s, s]).getD (k + 1) 0 + (fibNext^[k] [s, s]).getD k 0 := by
          rw [← hlen]
          exact getD_concat_len _ _ _
        rw [hstep, hLcast,
          getD_append_lt _ _ _ (by rw [hlen]; omega),
          getD_append_lt _ _ _ (by rw [hlen]; omega)]
        norm_num

theorem sizesOf_cons (a : Shape α) (l : List (Shape α)) :
    sizesOf (a :: l) = paramsGet a.params "size" 0 :: sizesOf l := rfl

theorem fibLoop_length (name : String) (hue : α) (fib : List α) :
    ∀ (l : List (Nat × α)) (x y : α), (fibLoop name hue fib l x y).length = l.length := by
  intro l
  induction l with
  | nil => intro x y; rfl
  | cons hd tl ih =>
    intro x y
    cases hd with
    | mk i size => simp [fibLoop, ih]

theorem sizesOf_fibLoop (name : String) (hue : α) (fib : List α) :
    ∀ (l : List (Nat × α)) (x y : α),
      sizesOf (fibLoop name hue fib l x y) = l.map Prod.snd := by
  intro l
  induction l with
  | nil => intro x y; rfl
  | cons hd tl ih =>
    intro x y
    cases hd with
    | mk i size =>
      simp only [fibLoop, sizesOf_cons, List.map_cons, ih]
      rfl

theorem sizesOf_fib_spiral (start : Shape α) (n : Int) :
    sizesOf (generate_fibonacci_spiral start n) =
      pySlice (fibBuild (paramsGet start.params "size" 1) n) n := by
  unfold generate_fibonacci_spiral
  rw [sizesOf_fibLoop, List.enum_map_snd]

theorem length_fib_spiral (start : Shape α) (n : Int) :
    (generate_fibonacci_spiral start n).length =
      (pySlice (fibBuild (paramsGet start.params "size" 1) n) n).length := by
  unfold generate_fibonacci_spiral
  rw [fibLoop_length, List.enum_length]

theorem lineSqLen_kochLine (a b : α × α) (h : α) :
    lineSqLen (kochLine a b h) = (b.1 - a.1) ^ 2 + (b.2 - a.2) ^ 2 := rfl

end Lemmas

section Claims

variable {α : Type} [LinearOrderedField α] [FloorRing α]

/-- C1: `generate_sequence` fails with the unknown rule/preset error exactly
when the key names neither a primitive rule nor a preset (returning no
sequence), and succeeds on every known rule or preset key. -/
theorem C1_unknown_key_raises (c : MathConsts α) (kw : Kwargs α) (s : Shape α)
    (n : Int) (k : String) :
    (k ∉ allKeys →
      generate_sequence c kw s k n = Except.error ("Unknown rule or preset: " ++ k)) ∧
    (k ∈ allKeys → (generate_sequence c kw s k n).isOk = true) := by
  constructor
  · intro hk
    simp only [allKeys, primitiveKeys, presetKeys, List.mem_append, List.mem_cons,
      List.not_mem_nil, or_false] at hk
    push_neg at hk
    obtain ⟨⟨h1, h2, h3, h4, h5⟩, h6, h7⟩ := hk
    have hp : (PRESETS c kw : List (String × (Shape α → Int → List (Shape α)))).find?
        (fun e => e.1 == k) = none := by
      rw [List.find?_eq_none]
      intro x hx
      simp only [PRESETS, List.mem_cons, List.not_mem_nil, or_false] at hx
      rcases hx with rfl | rfl
      · rw [beq_iff_eq]
        exact fun he => h6 he.symm
      · rw [beq_iff_eq]
        exact fun he => h7 he.symm
    have hr : (PRIMITIVE_RULES c kw : List (String × (Shape α → Shape α))).find?
        (fun e => e.1 == k) = none := by
      rw [List.find?_eq_none]
      intro x hx
      simp only [PRIMITIVE_RULES, List.mem_cons, List.not_mem_nil, or_false] at hx
      rcases hx with rfl | rfl | rfl | rfl | rfl
      · rw [beq_iff_eq]
        exact fun he => h1 he.symm
      · rw [beq_iff_eq]
        exact fun he => h2 he.symm
      · rw [beq_iff_eq]
        exact fun he => h3 he.symm
      · rw [beq_iff_eq]
        exact fun he => h4 he.symm
      · rw [beq_iff_eq]
        exact fun he => h5 he.symm
    unfold generate_sequence
    rw [hp, hr]
  · intro hk
    simp only [allKeys, primitiveKeys, presetKeys, List.mem_append, List.mem_cons,
      List.not_mem_nil, or_false] at hk
    rcases hk with (rfl | rfl | rfl | rfl | rfl) | (rfl | rfl) <;> rfl

/-- Witness for C1: the unknown key "blorp" raises; the known key "rotate"
does not. -/
theorem C1_unknown_key_raises_witness :
    ("blorp" ∉ allKeys ∧
      generate_sequence (MathConsts.mk (1 : ℚ) 1) (Kwargs.mk none none none none none)
        (Shape.mk "square" [("size", (10 : ℚ))]) "blorp" 5 =
        Except.error ("Unknown rule or preset: " ++ "blorp")) ∧
    ("rotate" ∈ allKeys ∧
      (generate_sequence (MathConsts.mk (1 : ℚ) 1) (Kwargs.mk none none none none none)
        (Shape.mk "square" [("size", (10 : ℚ))]) "rotate" 5).isOk = true) :=
  ⟨⟨by decide, (C1_unknown_key_raises _ _ _ _ _).1 (by decide)⟩,
   ⟨by decide, (C1_unknown_key_raises _ _ _ _ _).2 (by decide)⟩⟩

/-- C2: for every primitive rule key and every N ≥ 1, `generate_sequence`
returns a list of length exactly N whose first element is the start shape and
whose (i+1)-th element is the rule (with the same kwargs) applied to the
i-th. -/
theorem C2_primitive_iteration (c : MathConsts α) (kw : Kwargs α) (s : Shape α)
    (k : String) (n : Int) (hk : k ∈ primitiveKeys) (hn : 1 ≤ n) :
    ∃ l : List (Shape α), generate_sequence c kw s k n = Except.ok l ∧
      l.length = n.toNat ∧ l.getD 0 s = s ∧
      ∀ i : Nat, i + 1 < n.toNat →
        l.getD (i + 1) s = ruleOf c kw k (l.getD i s) := by
  refine ⟨genLoop (ruleOf c kw k) s (n - 1).toNat [s],
    genSeq_dispatch_prim c kw s n k hk, ?_, ?_, ?_⟩
  · obtain ⟨h, -, -⟩ := genLoop_spec (ruleOf c kw k) s (n - 1).toNat
    rw [h]
    omega
  · exact (genLoop_spec (ruleOf c kw k) s (n - 1).toNat).2.1
  · intro i hi
    refine (genLoop_spec (ruleOf c kw k) s (n - 1).toNat).2.2 i ?_
    omega

/-- Witness for C2 at the key "rotate" with N = 3. -/
theorem C2_primitive_iteration_witness :
    "rotate" ∈ primitiveKeys ∧ (1 : Int) ≤ 3 ∧
      ∃ l : List (Shape ℚ), generate_sequence (MathConsts.mk (1 : ℚ) 1)
          (Kwargs.mk none none none none none) (Shape.mk "square" []) "rotate" 3 =
            Except.ok l ∧
        l.length = (3 : Int).toNat ∧
        l.getD 0 (Shape.mk "square" []) = Shape.mk "square" [] ∧
        ∀ i : Nat, i + 1 < (3 : Int).toNat →
          l.getD (i + 1) (Shape.mk "square" []) =
            ruleOf (MathConsts.mk (1 : ℚ) 1) (Kwargs.mk none none none none none) "rotate"
              (l.getD i (Shape.mk "square" [])) :=
  ⟨by decide, by decide,
    C2_primitive_iteration _ _ _ _ _ (by decide) (by decide)⟩

/-- C10: for every primitive rule key and every iteration count N ≤ 1
(including 0 and negatives) `generate_sequence` does not raise and returns
the one-element list holding the start shape. -/
theorem C10_low_iterations (c : MathConsts α) (kw : Kwargs α) (s : Shape α)
    (k : String) (n : Int) (hk : k ∈ primitiveKeys) (hn : n ≤ 1) :
    generate_sequence c kw s k n = Except.ok [s] := by
  rw [genSeq_dispatch_prim c kw s n k hk]
  have h0 : (n - 1).toNat = 0 := by omega
  rw [h0]
  rfl

/-- Witness for C10 at the key "translate" with N = 0. -/
theorem C10_low_iterations_witness :
    "translate" ∈ primitiveKeys ∧ (0 : Int) ≤ 1 ∧
      generate_sequence (MathConsts.mk (1 : ℚ) 1) (Kwargs.mk none none none none none)
        (Shape.mk "circle" [("x", (4 : ℚ))]) "translate" 0 =
        Except.ok [Shape.mk "circle" [("x", (4 : ℚ))]] :=
  ⟨by decide, by decide, C10_low_iterations _ _ _ _ _ (by decide) (by decide)⟩

/-- C7: the primitive rules (through the registry), both preset generators
and `generate_sequence` are deterministic: equal inputs produce equal
outputs. -/
theorem C7_deterministic (c c2 : MathConsts α) (kw kw2 : Kwargs α) (s s2 : Shape α)
    (k k2 : String) (n n2 : Int) (hc : c = c2) (hkw : kw = kw2) (hs : s = s2)
    (hk : k = k2) (hn : n = n2) :
    ruleOf c kw k s = ruleOf c2 kw2 k2 s2 ∧
    generate_fibonacci_spiral s n = generate_fibonacci_spiral s2 n2 ∧
    generate_koch_snowflake c s n = generate_koch_snowflake c2 s2 n2 ∧
    generate_sequence c kw s k n = generate_sequence c2 kw2 s2 k2 n2 := by
  subst hc
  subst hkw
  subst hs
  subst hk
  subst hn
  exact ⟨rfl, rfl, rfl, rfl⟩

/-- Witness for C7 at concrete equal inputs. -/
theorem C7_deterministic_witness :
    (MathConsts.mk (1 : ℚ) 1 = MathConsts.mk (1 : ℚ) 1) ∧
    (Kwargs.mk (some (2 : ℚ)) none none none none = Kwargs.mk (some (2 : ℚ)) none none none none) ∧
    (Shape.mk "square" [("size", (3 : ℚ))] = Shape.mk "square" [("size", (3 : ℚ))]) ∧
    ("rotate" = "rotate") ∧ ((4 : Int) = 4) ∧
    (ruleOf (MathConsts.mk (1 : ℚ) 1) (Kwargs.mk (some (2 : ℚ)) none none none none) "rotate"
        (Shape.mk "square" [("size", (3 : ℚ))]) =
      ruleOf (MathConsts.mk (1 : ℚ) 1) (Kwargs.mk (some (2 : ℚ)) none none none none) "rotate"
        (Shape.mk "square" [("size", (3 : ℚ))]) ∧
      generate_fibonacci_spiral (Shape.mk "square" [("size", (3 : ℚ))]) 4 =
        generate_fibonacci_spiral (Shape.mk "square" [("size", (3 : ℚ))]) 4 ∧
      generate_koch_snowflake (MathConsts.mk (1 : ℚ) 1) (Shape.mk "square" [("size", (3 : ℚ))]) 4 =
        generate_koch_snowflake (MathConsts.mk (1 : ℚ) 1) (Shape.mk "square" [("size", (3 : ℚ))]) 4 ∧
      generate_sequence (MathConsts.mk (1 : ℚ) 1) (Kwargs.mk (some (2 : ℚ)) none none none none)
          (Shape.mk "square" [("size", (3 : ℚ))]) "rotate" 4 =
        generate_sequence (MathConsts.mk (1 : ℚ) 1) (Kwargs.mk (some (2 : ℚ)) none none none none)
          (Shape.mk "square" [("size", (3 : ℚ))]) "rotate" 4) :=
  ⟨rfl, rfl, rfl, rfl, rfl,
    C7_deterministic _ _ _ _ _ _ _ _ _ _ rfl rfl rfl rfl rfl⟩

/-- C6: the angle produced by `rule_rotate` and the hue produced by
`rule_hue_shift` always lie in [0, 360), whatever the input shape and
whatever the increment kwargs. -/
theorem C6_angle_hue_in_range (kw : Kwargs α) (s : Shape α) :
    (0 ≤ paramsGet (rule_rotate kw s).params "angle" 0 ∧
      paramsGet (rule_rotate kw s).params "angle" 0 < 360) ∧
    (0 ≤ paramsGet (rule_hue_shift kw s).params "hue" 0 ∧
      paramsGet (rule_hue_shift kw s).params "hue" 0 < 360) := by
  have h360 : (0 : α) < 360 := by norm_num
  have e1 : paramsGet (rule_rotate kw s).params "angle" 0 =
      pyMod (paramsGet s.params "angle" 0 + kw.rotation_increment.getD 30) 360 := rfl
  have e2 : paramsGet (rule_hue_shift kw s).params "hue" 0 =
      pyMod (paramsGet s.params "hue" 0 + kw.hue_shift.getD 10) 360 := rfl
  rw [e1, e2]
  exact ⟨⟨pyMod_nonneg _ _ h360, pyMod_lt _ _ h360⟩,
    ⟨pyMod_nonneg _ _ h360, pyMod_lt _ _ h360⟩⟩

/-- C9: the Koch stub's triangle is anchored at the origin with vertices
(0,0), (size,0) and (size/2, size·sin60), every edge carries the start
shape's hue, and the output depends only on the size and hue parameters
(in particular not on x or y). -/
theorem C9_koch_origin_anchored (c : MathConsts α) (start : Shape α) (n : Int) :
    generate_koch_snowflake c start n =
      [Shape.mk "line" [("x1", 0), ("y1", 0), ("x2", paramsGet start.params "size" 1),
          ("y2", 0), ("hue", paramsGet start.params "hue" 0)],
       Shape.mk "line" [("x1", paramsGet start.params "size" 1), ("y1", 0),
          ("x2", paramsGet start.params "size" 1 / 2),
          ("y2", paramsGet start.params "size" 1 * c.sin60),
          ("hue", paramsGet start.params "hue" 0)],
       Shape.mk "line" [("x1", paramsGet start.params "size" 1 / 2),
          ("y1", paramsGet start.params "size" 1 * c.sin60), ("x2", 0), ("y2", 0),
          ("hue", paramsGet start.params "hue" 0)]] ∧
    ∀ s2 : Shape α, paramsGet s2.params "size" 1 = paramsGet start.params "size" 1 →
      paramsGet s2.params "hue" 0 = paramsGet start.params "hue" 0 →
      generate_koch_snowflake c s2 n = generate_koch_snowflake c start n := by
  constructor
  · rfl
  · intro s2 hsz hh
    simp only [generate_koch_snowflake, kochLine]
    rw [hsz, hh]

/-- Witness for C9: two shapes sharing size and hue but differing in kind,
x and y generate the same triangle. -/
theorem C9_koch_origin_anchored_witness :
    paramsGet (Shape.mk "tri" [("x", (9 : ℚ)), ("size", 2), ("hue", 5)]).params "size" 1 =
      paramsGet (Shape.mk "square"
        [("size", (2 : ℚ)), ("hue", 5), ("x", 1), ("y", 3)]).params "size" 1 ∧
    paramsGet (Shape.mk "tri" [("x", (9 : ℚ)), ("size", 2), ("hue", 5)]).params "hue" 0 =
      paramsGet (Shape.mk "square"
        [("size", (2 : ℚ)), ("hue", 5), ("x", 1), ("y", 3)]).params "hue" 0 ∧
    generate_koch_snowflake (MathConsts.mk (1 : ℚ) 1)
        (Shape.mk "tri" [("x", (9 : ℚ)), ("size", 2), ("hue", 5)]) 4 =
      generate_koch_snowflake (MathConsts.mk (1 : ℚ) 1)
        (Shape.mk "square" [("size", (2 : ℚ)), ("hue", 5), ("x", 1), ("y", 3)]) 4 :=
  ⟨rfl, rfl, (C9_koch_origin_anchored _ _ _).2 _ rfl rfl⟩

/-- C8: every primitive rule preserves the shape kind, outputs a parameter
mapping with exactly the five keys x, y, size, angle, hue, and reads any
missing input parameter as its documented default (0, or 1 for size). -/
theorem C8_rule_shape_invariants (c : MathConsts α) (kw : Kwargs α) (s : Shape α) :
    ruleWellFormed (rule_scale_by_diagonal c) s ∧
    ruleWellFormed (rule_uniform_scale kw) s ∧
    ruleWellFormed (rule_rotate kw) s ∧
    ruleWellFormed (rule_translate kw) s ∧
    ruleWellFormed (rule_hue_shift kw) s := by
  refine ⟨⟨rfl, rfl, ?_⟩, ⟨rfl, rfl, ?_⟩, ⟨rfl, rfl, ?_⟩, ⟨rfl, rfl, ?_⟩, ⟨rfl, rfl, ?_⟩⟩
  all_goals
    simp only [rule_scale_by_diagonal, rule_uniform_scale, rule_rotate, rule_translate,
      rule_hue_shift, paramsGet_fillDefaults_x, paramsGet_fillDefaults_y,
      paramsGet_fillDefaults_size, paramsGet_fillDefaults_angle, paramsGet_fillDefaults_hue]

/-- C3 counterexample: `rotate` is not specified to mutate the parameter
key "foo"; the input carries "foo" with value 5, yet the key is absent from
the output's parameters, so not every unmutated parameter key is carried
forward. -/
theorem C3_counterexample :
    lookupParam (Shape.mk "square" [("foo", (5 : ℚ))]).params "foo" = some 5 ∧
    lookupParam (rule_rotate (Kwargs.mk none none none none none)
        (Shape.mk "square" [("foo", (5 : ℚ))])).params "foo" = none :=
  ⟨rfl, rfl⟩

/-- C3 (amended): every recognized parameter key (among x, y, size, angle,
hue) that is present in the input shape and that a primitive rule is not
specified to mutate appears in the rule's output with the same value. -/
theorem C3_amended_preserves_recognized (c : MathConsts α) (kw : Kwargs α)
    (s : Shape α) (k : String) (v : α) (hv : lookupParam s.params k = some v) :
    (k ∈ ["y", "angle", "hue"] →
      lookupParam (rule_scale_by_diagonal c s).params k = some v) ∧
    (k ∈ ["y", "angle", "hue"] →
      lookupParam (rule_uniform_scale kw s).params k = some v) ∧
    (k ∈ ["x", "y", "size", "hue"] →
      lookupParam (rule_rotate kw s).params k = some v) ∧
    (k ∈ ["size", "angle", "hue"] →
      lookupParam (rule_translate kw s).params k = some v) ∧
    (k ∈ ["x", "y", "size", "angle"] →
      lookupParam (rule_hue_shift kw s).params k = some v) := by
  refine ⟨fun hm => ?_, fun hm => ?_, fun hm => ?_, fun hm => ?_, fun hm => ?_⟩ <;>
    simp only [List.mem_cons, List.not_mem_nil, or_false] at hm
  · rcases hm with rfl | rfl | rfl
    all_goals exact congrArg some (paramsGet_of_lookup _ _ _ _ hv)
  · rcases hm with rfl | rfl | rfl
    all_goals exact congrArg some (paramsGet_of_lookup _ _ _ _ hv)
  · rcases hm with rfl | rfl | rfl | rfl
    all_goals exact congrArg some (paramsGet_of_lookup _ _ _ _ hv)
  · rcases hm with rfl | rfl | rfl
    all_goals exact congrArg some (paramsGet_of_lookup _ _ _ _ hv)
  · rcases hm with rfl | rfl | rfl | rfl
    all_goals exact congrArg some (paramsGet_of_lookup _ _ _ _ hv)

/-- Witness for C3 (amended): the hue carried by the input survives
`rotate`. -/
theorem C3_amended_preserves_recognized_witness :
    lookupParam (Shape.mk "square" [("hue", (7 : ℚ))]).params "hue" = some 7 ∧
    "hue" ∈ ["x", "y", "size", "hue"] ∧
    lookupParam (rule_rotate (Kwargs.mk none none none none none)
      (Shape.mk "square" [("hue", (7 : ℚ))])).params "hue" = some 7 :=
  ⟨rfl, by decide,
    (C3_amended_preserves_recognized (MathConsts.mk (1 : ℚ) 1)
      (Kwargs.mk none none none none none) (Shape.mk "square" [("hue", (7 : ℚ))])
      "hue" 7 rfl).2.2.1 (by decide)⟩

/-- C4: for N ≥ 1 the fibonacci spiral has length exactly N, its first size
equals the start size (as does the second when N ≥ 2), and from index 2 on
each size is the sum of the two previous sizes. -/
theorem C4_fibonacci_sizes (start : Shape α) (n : Int) (hn : 1 ≤ n) :
    (generate_fibonacci_spiral start n).length = n.toNat ∧
    (sizesOf (generate_fibonacci_spiral start n)).getD 0 0 =
      paramsGet start.params "size" 1 ∧
    (2 ≤ n → (sizesOf (generate_fibonacci_spiral start n)).getD 1 0 =
      paramsGet start.params "size" 1) ∧
    ∀ i : Nat, 2 ≤ i → i < n.toNat →
      (sizesOf (generate_fibonacci_spiral start n)).getD i 0 =
        (sizesOf (generate_fibonacci_spiral start n)).getD (i - 1) 0 +
          (sizesOf (generate_fibonacci_spiral start n)).getD (i - 2) 0 := by
  obtain ⟨hlen, h0, h1, hrec⟩ :=
    fibNext_iter_spec (paramsGet start.params "size" 1) ((n - 2).toNat)
  have hslice : pySlice (fibBuild (paramsGet start.params "size" 1) n) n =
      (fibBuild (paramsGet start.params "size" 1) n).take n.toNat := by
    unfold pySlice
    rw [if_neg (by omega)]
  have hsz : sizesOf (generate_fibonacci_spiral start n) =
      (fibBuild (paramsGet start.params "size" 1) n).take n.toNat := by
    rw [sizesOf_fib_spiral, hslice]
  have hlen2 : (fibBuild (paramsGet start.params "size" 1) n).length =
      (n - 2).toNat + 2 := hlen
  refine ⟨?_, ?_, ?_, ?_⟩
  · rw [length_fib_spiral, hslice, List.length_take, hlen2]
    omega
  · rw [hsz, getD_take_lt _ _ _ (by omega)]
    exact h0
  · intro h2
    rw [hsz, getD_take_lt _ _ _ (by omega)]
    exact h1
  · intro i hi2 hilt
    rw [hsz, getD_take_lt _ _ _ (by omega), getD_take_lt _ _ _ (by omega),
      getD_take_lt _ _ _ (by omega)]
    exact hrec i hi2 (by omega)

/-- Witness for C4 at a unit square with N = 5. -/
theorem C4_fibonacci_sizes_witness :
    (1 : Int) ≤ 5 ∧
    ((generate_fibonacci_spiral (Shape.mk "square" [("size", (1 : ℚ))]) 5).length =
        (5 : Int).toNat ∧
      (sizesOf (generate_fibonacci_spiral (Shape.mk "square" [("size", (1 : ℚ))]) 5)).getD 0 0 =
        paramsGet (Shape.mk "square" [("size", (1 : ℚ))]).params "size" 1 ∧
      ((2 : Int) ≤ 5 →
        (sizesOf (generate_fibonacci_spiral
          (Shape.mk "square" [("size", (1 : ℚ))]) 5)).getD 1 0 =
          paramsGet (Shape.mk "square" [("size", (1 : ℚ))]).params "size" 1) ∧
      ∀ i : Nat, 2 ≤ i → i < (5 : Int).toNat →
        (sizesOf (generate_fibonacci_spiral
          (Shape.mk "square" [("size", (1 : ℚ))]) 5)).getD i 0 =
          (sizesOf (generate_fibonacci_spiral
            (Shape.mk "square" [("size", (1 : ℚ))]) 5)).getD (i - 1) 0 +
            (sizesOf (generate_fibonacci_spiral
              (Shape.mk "square" [("size", (1 : ℚ))]) 5)).getD (i - 2) 0) :=
  ⟨by decide, C4_fibonacci_sizes _ _ (by decide)⟩

/-- C5 counterexample: with start size −1 the first edge of the Koch stub
triangle has Euclidean length 1, which is not the size parameter −1, so the
sides do not in general have length equal to the size parameter. -/
theorem C5_counterexample :
    Real.sqrt (lineSqLen ((generate_koch_snowflake
        (MathConsts.mk (Real.sqrt 2) (Real.sqrt 3 / 2))
        (Shape.mk "square" [("size", (-1 : ℝ))]) 3).getD 0 (Shape.mk "" []))) ≠
      paramsGet (Shape.mk "square" [("size", (-1 : ℝ))]).params "size" 1 := by
  have h1 : paramsGet (Shape.mk "square" [("size", (-1 : ℝ))]).params "size" 1 = -1 := rfl
  rw [h1]
  intro h
  have h2 := Real.sqrt_nonneg (lineSqLen ((generate_koch_snowflake
      (MathConsts.mk (Real.sqrt 2) (Real.sqrt 3 / 2))
      (Shape.mk "square" [("size", (-1 : ℝ))]) 3).getD 0 (Shape.mk "" [])))
  rw [h] at h2
  norm_num at h2

/-- C5 (amended): whenever sin 60° is interpreted by a value whose square
is 3/4 (as the real value √3/2 is), `generate_koch_snowflake` returns, for
every iteration count, exactly 3 line shapes forming a closed triangle each
of whose sides has squared length size², i.e. Euclidean length |size|
(an equilateral triangle). -/
theorem C5_koch_triangle (c : MathConsts α) (start : Shape α) (n : Int)
    (hsin : c.sin60 ^ 2 = 3 / 4) :
    (generate_koch_snowflake c start n).length = 3 ∧
    (∀ sh ∈ generate_koch_snowflake c start n, sh.name = "line") ∧
    (paramsGet ((generate_koch_snowflake c start n).getD 0 (Shape.mk "" [])).params "x2" 0 =
        paramsGet ((generate_koch_snowflake c start n).getD 1 (Shape.mk "" [])).params "x1" 0 ∧
      paramsGet ((generate_koch_snowflake c start n).getD 0 (Shape.mk "" [])).params "y2" 0 =
        paramsGet ((generate_koch_snowflake c start n).getD 1 (Shape.mk "" [])).params "y1" 0 ∧
      paramsGet ((generate_koch_snowflake c start n).getD 1 (Shape.mk "" [])).params "x2" 0 =
        paramsGet ((generate_koch_snowflake c start n).getD 2 (Shape.mk "" [])).params "x1" 0 ∧
      paramsGet ((generate_koch_snowflake c start n).getD 1 (Shape.mk "" [])).params "y2" 0 =
        paramsGet ((generate_koch_snowflake c start n).getD 2 (Shape.mk "" [])).params "y1" 0 ∧
      paramsGet ((generate_koch_snowflake c start n).getD 2 (Shape.mk "" [])).params "x2" 0 =
        paramsGet ((generate_koch_snowflake c start n).getD 0 (Shape.mk "" [])).params "x1" 0 ∧
      paramsGet ((generate_koch_snowflake c start n).getD 2 (Shape.mk "" [])).params "y2" 0 =
        paramsGet ((generate_koch_snowflake c start n).getD 0 (Shape.mk "" [])).params "y1" 0) ∧
    ∀ sh ∈ generate_koch_snowflake c start n,
      lineSqLen sh = paramsGet start.params "size" 1 ^ 2 := by
  refine ⟨rfl, ?_, ⟨rfl, rfl, rfl, rfl, rfl, rfl⟩, ?_⟩
  · intro sh hm
    simp only [generate_koch_snowflake, List.mem_cons, List.not_mem_nil, or_false] at hm
    rcases hm with rfl | rfl | rfl <;> rfl
  · intro sh hm
    simp only [generate_koch_snowflake, List.mem_cons, List.not_mem_nil, or_false] at hm
    rcases hm with rfl | rfl | rfl
    · rw [lineSqLen_kochLine]
      dsimp only
      ring
    · rw [lineSqLen_kochLine]
      dsimp only
      linear_combination (paramsGet start.params "size" 1) ^ 2 * hsin
    · rw [lineSqLen_kochLine]
      dsimp only
      linear_combination (paramsGet start.params "size" 1) ^ 2 * hsin

/-- Witness for C5 (amended) over ℝ with the true sine value and a start
square of size 2. -/
theorem C5_koch_triangle_witness :
    (MathConsts.mk (Real.sqrt 2) (Real.sqrt 3 / 2)).sin60 ^ 2 = 3 / 4 ∧
    ((generate_koch_snowflake (MathConsts.mk (Real.sqrt 2) (Real.sqrt 3 / 2))
        (Shape.mk "square" [("size", (2 : ℝ))]) 9).length = 3 ∧
      (∀ sh ∈ generate_koch_snowflake (MathConsts.mk (Real.sqrt 2) (Real.sqrt 3 / 2))
          (Shape.mk "square" [("size", (2 : ℝ))]) 9, sh.name = "line") ∧
      (paramsGet ((generate_koch_snowflake (MathConsts.mk (Real.sqrt 2) (Real.sqrt 3 / 2))
            (Shape.mk "square" [("size", (2 : ℝ))]) 9).getD 0 (Shape.mk "" [])).params "x2" 0 =
          paramsGet ((generate_koch_snowflake (MathConsts.mk (Real.sqrt 2) (Real.sqrt 3 / 2))
            (Shape.mk "square" [("size", (2 : ℝ))]) 9).getD 1 (Shape.mk "" [])).params "x1" 0 ∧
        paramsGet ((generate_koch_snowflake (MathConsts.mk (Real.sqrt 2) (Real.sqrt 3 / 2))
            (Shape.mk "square" [("size", (2 : ℝ))]) 9).getD 0 (Shape.mk "" [])).params "y2" 0 =
          paramsGet ((generate_koch_snowflake (MathConsts.mk (Real.sqrt 2) (Real.sqrt 3 / 2))
            (Shape.mk "square" [("size", (2 : ℝ))]) 9).getD 1 (Shape.mk "" [])).params "y1" 0 ∧
        paramsGet ((generate_koch_snowflake (MathConsts.mk (Real.sqrt 2) (Real.sqrt 3 / 2))
            (Shape.mk "square" [("size", (2 : ℝ))]) 9).getD 1 (Shape.mk "" [])).params "x2" 0 =
          paramsGet ((generate_koch_snowflake (MathConsts.mk (Real.sqrt 2) (Real.sqrt 3 / 2))
            (Shape.mk "square" [("size", (2 : ℝ))]) 9).getD 2 (Shape.mk "" [])).params "x1" 0 ∧
        paramsGet ((generate_koch_snowflake (MathConsts.mk (Real.sqrt 2) (Real.sqrt 3 / 2))
            (Shape.mk "square" [("size", (2 : ℝ))]) 9).getD 1 (Shape.mk "" [])).params "y2" 0 =
          paramsGet ((generate_koch_snowflake (MathConsts.mk (Real.sqrt 2) (Real.sqrt 3 / 2))
            (Shape.mk "square" [("size", (2 : ℝ))]) 9).getD 2 (Shape.mk "" [])).params "y1" 0 ∧
        paramsGet ((generate_koch_snowflake (MathConsts.mk (Real.sqrt 2) (Real.sqrt 3 / 2))
            (Shape.mk "square" [("size", (2 : ℝ))]) 9).getD 2 (Shape.mk "" [])).params "x2" 0 =
          paramsGet ((generate_koch_snowflake (MathConsts.mk (Real.sqrt 2) (Real.sqrt 3 / 2))
            (Shape.mk "square" [("size", (2 : ℝ))]) 9).getD 0 (Shape.mk "" [])).params "x1" 0 ∧
        paramsGet ((generate_koch_snowflake (MathConsts.mk (Real.sqrt 2) (Real.sqrt 3 / 2))
            (Shape.mk "square" [("size", (2 : ℝ))]) 9).getD 2 (Shape.mk "" [])).params "y2" 0 =
          paramsGet ((generate_koch_snowflake (MathConsts.mk (Real.sqrt 2) (Real.sqrt 3 / 2))
            (Shape.mk "square" [("size", (2 : ℝ))]) 9).getD 0 (Shape.mk "" [])).params "y1" 0) ∧
      ∀ sh ∈ generate_koch_snowflake (MathConsts.mk (Real.sqrt 2) (Real.sqrt 3 / 2))
          (Shape.mk "square" [("size", (2 : ℝ))]) 9,
        lineSqLen sh = paramsGet (Shape.mk "square" [("size", (2 : ℝ))]).params "size" 1 ^ 2) := by
  have hs : (MathConsts.mk (Real.sqrt 2) (Real.sqrt 3 / 2)).sin60 ^ 2 = 3 / 4 := by
    show (Real.sqrt 3 / 2) ^ 2 = 3 / 4
    rw [div_pow, Real.sq_sqrt]
    · norm_num
    · norm_num
  exact ⟨hs, C5_koch_triangle _ _ _ hs⟩

end Claims
